import Mathlib

/-!
Verification of the KPOD-to-MIDI bridge (sources: gui_main.py, kpod.py,
kpodalt.py).  The decode logic, rocker-position state machine, encoder tick
fan-out and button classification of the two bridge variants are embedded as
executable Lean definitions, and the behavioural claims of the specification
are settled against them.

A MIDI message is modelled as its raw byte list; an emitted stream is a list
of messages, in emission order.
-/

/-- One MIDI channel-voice message, as its list of bytes. -/
abbrev MidiMsg := List Nat

/-- Rocker position as tracked by the GUI bridge (`self.current_rocker`,
strings "VFO A" / "VFO B" / "XIT/RIT" / "UNKNOWN" in the source). -/
inductive Rocker where
  | vfoA
  | vfoB
  | xitRit
  | unknown
deriving DecidableEq, Repr, Fintype

/-- TAP buttons: flags 0x41-0x48 (dict `TAP_NOTE_MAP` in both variants). -/
def TAP_NOTE_MAP : List (Nat × Nat) :=
  [(0x41, 64), (0x42, 65), (0x43, 66), (0x44, 67),
   (0x45, 68), (0x46, 69), (0x47, 70), (0x48, 71)]

/-- HOLD buttons: flags 0x51-0x58 (dict `HOLD_NOTE_MAP` in both variants). -/
def HOLD_NOTE_MAP : List (Nat × Nat) :=
  [(0x51, 72), (0x52, 73), (0x53, 74), (0x54, 75),
   (0x55, 76), (0x56, 77), (0x57, 78), (0x58, 79)]

/-- Rocker position change MIDI notes (dict `ROCKER_POSITION_NOTES` in
gui_main.py: "VFO A" = 110, "VFO B" = 111, "XIT/RIT" = 112; no entry for the
unknown state). -/
def ROCKER_POSITION_NOTES : Rocker → Option Nat
  | .vfoA => some 110
  | .vfoB => some 111
  | .xitRit => some 112
  | .unknown => none

/-- `struct.unpack("<h", bytes(response[1:3]))[0]`: the signed little-endian
16-bit value with low byte `lo` and high byte `hi`. -/
def decodeTicks (lo hi : Nat) : Int :=
  let u : Nat := lo + 256 * hi
  if u < 32768 then (u : Int) else (u : Int) - 65536

/-- `send_note(note, velocity)`: MIDI Note On immediately followed by
Note Off (gui_main.py `send_note`, identical in kpod.py / kpodalt.py). -/
def send_note (note velocity : Nat) : List MidiMsg :=
  [[0x90, note, velocity], [0x80, note, 0]]

/-- `detect_rocker_position_from_event(controls, has_activity)` of
gui_main.py: returns the newly detected position, or `none` for no change. -/
def detect_rocker_position_from_event
    (controls : Nat) (has_activity : Bool) (current : Rocker) : Option Rocker :=
  let rocker_bits := (controls >>> 5) &&& 0x03
  if rocker_bits == 0b10 then
    some .vfoA
  else if rocker_bits == 0b01 then
    some .xitRit
  else if controls == 0x00 && has_activity then
    some .vfoB
  else if controls == 0x00 && !(current == .vfoB || current == .unknown) then
    some .vfoB
  else
    none

/-- `send_rocker_position_change(new_position)` of gui_main.py: the MIDI
events it emits (a note pair when the position has an assigned note). -/
def send_rocker_position_change (new_position : Rocker) : List MidiMsg :=
  match ROCKER_POSITION_NOTES new_position with
  | some note => send_note note 127
  | none => []

/-- The rocker-update step of `kpod_worker` (gui_main.py lines 350-356):
detect a new position, and when it differs from the current one emit the
position-change events and adopt it.  Returns the post-step position and the
emitted events. -/
def rockerStep (controls : Nat) (has_activity : Bool) (pos : Rocker) :
    Rocker × List MidiMsg :=
  match detect_rocker_position_from_event controls has_activity pos with
  | some p => if p == pos then (pos, []) else (p, send_rocker_position_change p)
  | none => (pos, [])

/-- `get_encoder_notes` of gui_main.py: (CW, CCW) note pair for the current
rocker position; XIT/RIT uses (102, 103), every other position the standard
`ENCODER_NOTES` pair (100, 101). -/
def get_encoder_notes (current_rocker : Rocker) : Nat × Nat :=
  if current_rocker == .xitRit then (102, 103) else (100, 101)

/-- The encoder fan-out loop of `kpod_worker` (gui_main.py lines 362-373,
identical shape in kpod.py): `ticks` positive sends `ticks` CW note pairs,
negative sends `abs(ticks)` CCW note pairs, zero sends nothing. -/
def encoderEvents (ticks : Int) (cw_note ccw_note : Nat) : List MidiMsg :=
  if ticks > 0 then
    List.flatten (List.replicate ticks.toNat (send_note cw_note 127))
  else if ticks < 0 then
    List.flatten (List.replicate ticks.natAbs (send_note ccw_note 127))
  else
    []

/-- The `for i in range(8): if button_bits & (1 << i): ... break` search of
gui_main.py: index of the lowest set bit among bits 0-7, if any. -/
def lowestSetBit (bits : Nat) : Option Nat :=
  (List.range 8).find? fun i => bits &&& (1 <<< i) != 0

/-- The note chosen by the button block of `kpod_worker` (gui_main.py lines
375-399): for a non-zero button bitmask, look the combined flag value up in
the TAP/HOLD table, falling back to `base_note + i` for the lowest set bit
`i`; `none` when no button bit is set. -/
def buttonNote (controls : Nat) : Option Nat :=
  let button_bits := controls &&& 0x0F
  if button_bits != 0 then
    match lowestSetBit button_bits with
    | some i =>
      if controls &&& 0x10 == 0 then
        match TAP_NOTE_MAP.lookup (0x40 ||| button_bits) with
        | some note => some note
        | none => some (64 + i)
      else
        match HOLD_NOTE_MAP.lookup (0x50 ||| button_bits) with
        | some note => some note
        | none => some (72 + i)
    | none => none
  else
    none

/-- MIDI events emitted by the button block of `kpod_worker` in one cycle. -/
def buttonEvents (controls : Nat) : List MidiMsg :=
  match buttonNote controls with
  | some note => send_note note 127
  | none => []

/-- One poll cycle of `kpod_worker` (gui_main.py lines 337-399) on a given
response (`none` models a failed `send_kpod_command`): returns the rocker
position carried to the next cycle and the MIDI events emitted, in order.
A response of wrong length, or whose byte 0 is not the echoed command 0x75,
is skipped without events or state change. -/
def guiCycle (response : Option (List Nat)) (pos : Rocker) :
    Rocker × List MidiMsg :=
  match response with
  | none => (pos, [])
  | some r =>
    if r.length == 8 then
      let cmd_reply := r.getD 0 0
      let ticks := decodeTicks (r.getD 1 0) (r.getD 2 0)
      let controls := r.getD 3 0
      if cmd_reply == 0x75 then
        let has_activity : Bool := ticks != 0 || controls &&& 0x0F != 0
        let rs := rockerStep controls has_activity pos
        let notes := get_encoder_notes rs.1
        (rs.1, rs.2 ++ encoderEvents ticks notes.1 notes.2 ++ buttonEvents controls)
      else
        (pos, [])
    else
      (pos, [])

/-- A sequence of GUI poll cycles: final position and concatenated events. -/
def guiTrace (pos : Rocker) : List (Option (List Nat)) → Rocker × List MidiMsg
  | [] => (pos, [])
  | r :: rest =>
    let step := guiCycle r pos
    let cont := guiTrace step.1 rest
    (cont.1, step.2 ++ cont.2)

/-- Encoder tick MIDI note mapping by rocker position in kpod.py
(`ROCKER_NOTE_MAP`): keys are the raw rocker codes 0x40 (VFO A), 0x00
(VFO B / center), 0x20 (XIT/RIT). -/
def ROCKER_NOTE_MAP : List (Nat × (Nat × Nat)) :=
  [(0x40, (100, 101)), (0x00, (102, 103)), (0x20, (104, 105))]

/-- Carried state of the kpod.py main loop: `current_rocker` (a raw code,
initially 0x00) and `last_flags` (initially 0). -/
structure KpodState where
  current_rocker : Nat
  last_flags : Nat
deriving DecidableEq, Repr

/-- The TAP/HOLD detection block of kpod.py (lines 126-137): the flags byte
is compared with the previous one; on change, an exact table lookup of the
whole flags byte picks the note (no event when the byte is in neither
table), and `last_flags` is updated.  Returns the new `last_flags` and the
emitted events. -/
def kpodButtonStep (flags last_flags : Nat) : Nat × List MidiMsg :=
  if flags != last_flags then
    match TAP_NOTE_MAP.lookup flags with
    | some note => (flags, send_note note 127)
    | none =>
      match HOLD_NOTE_MAP.lookup flags with
      | some note => (flags, send_note note 127)
      | none => (flags, [])
  else
    (last_flags, [])

/-- The stateful rocker detection of kpod.py (lines 105-111): bit 0x40 wins,
then bit 0x20; with neither set, a position previously at a side (0x40 or
0x20) falls back to the inferred center 0x00. -/
def kpodRocker (flags current_rocker : Nat) : Nat :=
  if flags &&& 0x40 != 0 then 0x40
  else if flags &&& 0x20 != 0 then 0x20
  else if current_rocker == 0x40 || current_rocker == 0x20 then 0x00
  else current_rocker

/-- One iteration of the kpod.py main loop (lines 96-137) on a response
(`none` models a failed read): new state and emitted MIDI events in order
(encoder events first, then the button event).  kpod.py checks only the
response length, not the echoed command byte. -/
def kpodCycle (response : Option (List Nat)) (st : KpodState) :
    KpodState × List MidiMsg :=
  match response with
  | none => (st, [])
  | some r =>
    if r.length == 8 then
      let ticks := decodeTicks (r.getD 1 0) (r.getD 2 0)
      let flags := r.getD 3 0
      let rocker := kpodRocker flags st.current_rocker
      let notes := (ROCKER_NOTE_MAP.lookup rocker).getD (102, 103)
      let bs := kpodButtonStep flags st.last_flags
      (⟨rocker, bs.1⟩, encoderEvents ticks notes.1 notes.2 ++ bs.2)
    else
      (st, [])

/-- A sequence of kpod.py loop iterations: final state and all events. -/
def kpodTrace (st : KpodState) : List (Option (List Nat)) → KpodState × List MidiMsg
  | [] => (st, [])
  | r :: rest =>
    let step := kpodCycle r st
    let cont := kpodTrace step.1 rest
    (cont.1, step.2 ++ cont.2)

/-- An emitted MIDI stream in which every Note-On message is immediately
followed by the Note-Off message for the same note. -/
inductive PairedStream : List MidiMsg → Prop where
  | nil : PairedStream []
  | cons (note velocity : Nat) (rest : List MidiMsg) :
      PairedStream rest →
      PairedStream ([0x90, note, velocity] :: [0x80, note, 0] :: rest)

/-! ### Helper lemmas -/

theorem guiCycle_none (pos : Rocker) : guiCycle none pos = (pos, []) := rfl

theorem guiCycle_badlen (r : List Nat) (pos : Rocker)
    (h : (r.length == 8) = false) : guiCycle (some r) pos = (pos, []) := by
  simp [guiCycle, h]

theorem guiCycle_badecho (r : List Nat) (pos : Rocker)
    (h8 : (r.length == 8) = true) (h : (r.getD 0 0 == 0x75) = false) :
    guiCycle (some r) pos = (pos, []) := by
  simp only [guiCycle]
  rw [h8, h]
  simp

theorem guiCycle_valid_eq (r : List Nat) (pos : Rocker)
    (h8 : (r.length == 8) = true) (hc : (r.getD 0 0 == 0x75) = true) :
    guiCycle (some r) pos
      = ((rockerStep (r.getD 3 0)
            (decodeTicks (r.getD 1 0) (r.getD 2 0) != 0 || (r.getD 3 0) &&& 0x0F != 0) pos).1,
         (rockerStep (r.getD 3 0)
            (decodeTicks (r.getD 1 0) (r.getD 2 0) != 0 || (r.getD 3 0) &&& 0x0F != 0) pos).2
           ++ encoderEvents (decodeTicks (r.getD 1 0) (r.getD 2 0))
                (get_encoder_notes (rockerStep (r.getD 3 0)
                  (decodeTicks (r.getD 1 0) (r.getD 2 0) != 0 || (r.getD 3 0) &&& 0x0F != 0) pos).1).1
                (get_encoder_notes (rockerStep (r.getD 3 0)
                  (decodeTicks (r.getD 1 0) (r.getD 2 0) != 0 || (r.getD 3 0) &&& 0x0F != 0) pos).1).2
           ++ buttonEvents (r.getD 3 0)) := by
  simp only [guiCycle]
  rw [h8, hc]
  rfl

theorem kpodCycle_valid_eq (r : List Nat) (st : KpodState)
    (h8 : (r.length == 8) = true) :
    kpodCycle (some r) st
      = (⟨kpodRocker (r.getD 3 0) st.current_rocker,
          (kpodButtonStep (r.getD 3 0) st.last_flags).1⟩,
         encoderEvents (decodeTicks (r.getD 1 0) (r.getD 2 0))
             ((ROCKER_NOTE_MAP.lookup (kpodRocker (r.getD 3 0) st.current_rocker)).getD (102, 103)).1
             ((ROCKER_NOTE_MAP.lookup (kpodRocker (r.getD 3 0) st.current_rocker)).getD (102, 103)).2
           ++ (kpodButtonStep (r.getD 3 0) st.last_flags).2) := by
  simp only [kpodCycle]
  rw [h8]
  rfl

theorem kpodCycle_badlen (r : List Nat) (st : KpodState)
    (h : (r.length == 8) = false) : kpodCycle (some r) st = (st, []) := by
  simp only [kpodCycle]
  rw [h]
  simp

theorem PairedStream.append {xs ys : List MidiMsg}
    (hx : PairedStream xs) (hy : PairedStream ys) : PairedStream (xs ++ ys) := by
  induction hx with
  | nil => simpa using hy
  | cons n v rest _ ih => exact PairedStream.cons n v _ ih

theorem pairedSendNote (n v : Nat) : PairedStream (send_note n v) :=
  PairedStream.cons n v [] PairedStream.nil

theorem pairedFlattenReplicate (k n v : Nat) :
    PairedStream (List.flatten (List.replicate k (send_note n v))) := by
  induction k with
  | zero => exact PairedStream.nil
  | succ m ih =>
    simpa [List.replicate_succ] using (pairedSendNote n v).append ih

theorem pairedEncoderEvents (t : Int) (cw ccw : Nat) :
    PairedStream (encoderEvents t cw ccw) := by
  unfold encoderEvents
  split
  · exact pairedFlattenReplicate _ _ _
  · split
    · exact pairedFlattenReplicate _ _ _
    · exact PairedStream.nil

theorem pairedButtonEvents (c : Nat) : PairedStream (buttonEvents c) := by
  cases h : buttonNote c with
  | some n => simpa [buttonEvents, h] using pairedSendNote n 127
  | none => simpa [buttonEvents, h] using PairedStream.nil

theorem pairedRockerChange (p : Rocker) :
    PairedStream (send_rocker_position_change p) := by
  cases p
  · exact pairedSendNote 110 127
  · exact pairedSendNote 111 127
  · exact pairedSendNote 112 127
  · exact PairedStream.nil

theorem pairedRockerStep (c : Nat) (a : Bool) (pos : Rocker) :
    PairedStream (rockerStep c a pos).2 := by
  unfold rockerStep
  cases h : detect_rocker_position_from_event c a pos with
  | some p =>
    cases hp : (p == pos) with
    | true => simpa [hp] using PairedStream.nil
    | false => simpa [hp] using pairedRockerChange p
  | none => exact PairedStream.nil

theorem pairedKpodButtonStep (f lf : Nat) :
    PairedStream (kpodButtonStep f lf).2 := by
  unfold kpodButtonStep
  split
  · cases hT : TAP_NOTE_MAP.lookup f with
    | some n => simpa [hT] using pairedSendNote n 127
    | none =>
      cases hH : HOLD_NOTE_MAP.lookup f with
      | some n => simpa [hT, hH] using pairedSendNote n 127
      | none => simpa [hT, hH] using PairedStream.nil
  · exact PairedStream.nil

theorem pairedGuiCycle (resp : Option (List Nat)) (pos : Rocker) :
    PairedStream (guiCycle resp pos).2 := by
  cases resp with
  | none => exact PairedStream.nil
  | some r =>
    by_cases h8 : (r.length == 8) = true
    · by_cases hc : (r.getD 0 0 == 0x75) = true
      · rw [guiCycle_valid_eq r pos h8 hc]
        exact ((pairedRockerStep _ _ _).append (pairedEncoderEvents _ _ _)).append
          (pairedButtonEvents _)
      · rw [guiCycle_badecho r pos h8 (by simpa using hc)]
        exact PairedStream.nil
    · rw [guiCycle_badlen r pos (by simpa using h8)]
      exact PairedStream.nil

theorem pairedKpodCycle (resp : Option (List Nat)) (st : KpodState) :
    PairedStream (kpodCycle resp st).2 := by
  cases resp with
  | none => exact PairedStream.nil
  | some r =>
    by_cases h8 : (r.length == 8) = true
    · rw [kpodCycle_valid_eq r st h8]
      exact (pairedEncoderEvents _ _ _).append (pairedKpodButtonStep _ _)
    · rw [kpodCycle_badlen r st (by simpa using h8)]
      exact PairedStream.nil

theorem pairedGuiTrace (pos : Rocker) (reports : List (Option (List Nat))) :
    PairedStream (guiTrace pos reports).2 := by
  induction reports generalizing pos with
  | nil => exact PairedStream.nil
  | cons r rest ih =>
    simpa [guiTrace] using (pairedGuiCycle r pos).append (ih _)

theorem pairedKpodTrace (st : KpodState) (reports : List (Option (List Nat))) :
    PairedStream (kpodTrace st reports).2 := by
  induction reports generalizing st with
  | nil => exact PairedStream.nil
  | cons r rest ih =>
    simpa [kpodTrace] using (pairedKpodCycle r st).append (ih _)

theorem length_flatten_replicate_pair (k n v : Nat) :
    (List.flatten (List.replicate k (send_note n v))).length = 2 * k := by
  induction k with
  | zero => rfl
  | succ m ih =>
    simp only [List.replicate_succ, List.flatten_cons, List.length_append, ih, send_note]
    simp [Nat.mul_succ]
    omega

theorem encoderEvents_eq_flatten (t : Int) (cw ccw : Nat) :
    encoderEvents t cw ccw
      = List.flatten (List.replicate t.natAbs (send_note (if 0 < t then cw else ccw) 127)) := by
  unfold encoderEvents
  rcases lt_trichotomy 0 t with h | h | h
  · rw [if_pos h, if_pos h, show t.toNat = t.natAbs by omega]
  · subst h
    simp
  · rw [if_neg (by omega : ¬ t > 0), if_pos h, if_neg (by omega : ¬ 0 < t)]

/-! ### Claims -/

/-- C1, counterexample: the claim fails on the GUI variant.  `kpod_worker` in
gui_main.py keeps no previously-seen control byte, so two consecutive reports
with the identical control byte 0x41 emit the TAP note-64 pair twice; the
Note-On message for note 64 occurs twice, not exactly once in total. -/
theorem c1_gui_repeat_counterexample :
    guiTrace .vfoA [some [0x75, 0, 0, 0x41, 0, 0, 0, 0], some [0x75, 0, 0, 0x41, 0, 0, 0, 0]]
      = (.vfoA, [[0x90, 64, 127], [0x80, 64, 0], [0x90, 64, 127], [0x80, 64, 0]]) ∧
    (guiTrace .vfoA [some [0x75, 0, 0, 0x41, 0, 0, 0, 0],
        some [0x75, 0, 0, 0x41, 0, 0, 0, 0]]).2.count [0x90, 64, 127] ≠ 1 := by
  decide

/-- C1 (amended): edge-triggered button classification holds in the kpod.py
variant.  When the flags byte equals the previous cycle's flags, the TAP/HOLD
block emits nothing and leaves `last_flags` unchanged; and the report sequence
with control bytes 0x41, 0x41, 0x41, 0x42, 0x41 emits exactly one TAP event
on note 64 for the repeated 0x41, then two further discrete events (note 65,
then note 64 again) for the change to 0x42 and back. -/
theorem c1_kpod_edge_triggered :
    (∀ flags, kpodButtonStep flags flags = (flags, [])) ∧
    kpodTrace ⟨0x00, 0⟩
        [some [0x75, 0, 0, 0x41, 0, 0, 0, 0], some [0x75, 0, 0, 0x41, 0, 0, 0, 0],
         some [0x75, 0, 0, 0x41, 0, 0, 0, 0], some [0x75, 0, 0, 0x42, 0, 0, 0, 0],
         some [0x75, 0, 0, 0x41, 0, 0, 0, 0]]
      = (⟨0x40, 0x41⟩,
         [[0x90, 64, 127], [0x80, 64, 0], [0x90, 65, 127], [0x80, 65, 0],
          [0x90, 64, 127], [0x80, 64, 0]]) :=
  ⟨fun flags => by simp [kpodButtonStep], by decide⟩

/-- C2, counterexample: the claim fails at the second report.  From UNKNOWN,
a report with rocker raw bits 10 (control byte 0x40) moves to VFO_A; but the
following report with control byte 0x00 and no activity already moves the
position to VFO_B (the code infers a transition away from a side position
regardless of activity), instead of staying VFO_A as claimed. -/
theorem c2_second_report_counterexample :
    (guiCycle (some [0x75, 0, 0, 0x40, 0, 0, 0, 0]) .unknown).1 = .vfoA ∧
    (guiCycle (some [0x75, 0, 0, 0x00, 0, 0, 0, 0]) .vfoA).1 = .vfoB ∧
    Rocker.vfoB ≠ Rocker.vfoA := by
  decide

/-- C2 (amended): for the trace 0x40, then 0x00 without activity, then 0x00
with activity, starting from UNKNOWN, the tracked position becomes VFO_A
after the first report (emitting position note 110), becomes VFO_B already
after the second report (emitting position note 111), and stays VFO_B with no
further position event after the third report (which only emits its encoder
pair). -/
theorem c2_rocker_trace_amended :
    guiCycle (some [0x75, 0, 0, 0x40, 0, 0, 0, 0]) .unknown
      = (.vfoA, [[0x90, 110, 127], [0x80, 110, 0]]) ∧
    guiCycle (some [0x75, 0, 0, 0x00, 0, 0, 0, 0]) .vfoA
      = (.vfoB, [[0x90, 111, 127], [0x80, 111, 0]]) ∧
    guiCycle (some [0x75, 1, 0, 0x00, 0, 0, 0, 0]) .vfoB
      = (.vfoB, [[0x90, 100, 127], [0x80, 100, 0]]) := by
  decide

/-- C3, counterexample: a control byte 0x01 has rocker raw bits 00 and makes
`hadActivity` true through its set button bit, yet the tracker resolves no
position at all: `detect_rocker_position_from_event` compares the whole
control byte with 0x00, and 0x01 is non-zero, so the cycle leaves the
position UNKNOWN rather than resolving VFO_B as claimed. -/
theorem c3_button_activity_counterexample :
    ((0x01 >>> 5) &&& 0x03 = 0) ∧
    (0x01 &&& 0x0F ≠ 0) ∧
    detect_rocker_position_from_event 0x01 true .unknown = none ∧
    (guiCycle (some [0x75, 0, 0, 0x01, 0, 0, 0, 0]) .unknown).1 = .unknown ∧
    Rocker.unknown ≠ Rocker.vfoB := by
  decide

/-- C3 (amended): the activity-based center inference fires only when the
whole control byte equals 0x00 (which forces rocker bits 00 and an empty
button bitmask, so the activity is necessarily a non-zero tick delta); in
that case it resolves VFO_B regardless of the current position, as shown both
at the detector and over a full cycle with tick delta +1. -/
theorem c3_center_inference_amended :
    (∀ current, detect_rocker_position_from_event 0x00 true current = some .vfoB) ∧
    (∀ pos, (guiCycle (some [0x75, 1, 0, 0x00, 0, 0, 0, 0]) pos).1 = .vfoB) := by
  exact ⟨by decide, by decide⟩

/-- C4, counterexample: for control byte 0x03 (buttons 1 and 2 both set,
TAP) the lowest set bit is bit 0, so the claim predicts note 64 + (1-1) = 64;
the code, however, finds the combined value 0x40|0x03 = 0x43 in the TAP table
and emits note 66, determined by the whole bitmask rather than the lowest set
bit alone. -/
theorem c4_lowest_bit_counterexample :
    (0x03 &&& 0x0F = 0x03) ∧
    lowestSetBit 0x03 = some 0 ∧
    buttonEvents 0x03 = send_note 66 127 ∧
    (66 : Nat) ≠ 64 + (1 - 1) := by
  decide

set_option maxRecDepth 4096 in
/-- C4 (amended): the button number is the 1-based index of the lowest set
bit, but the emitted note is not a function of that bit alone: whenever the
4-bit bitmask lies in 1..8 the combined value hits the note table and the
note is 64 + bitmask - 1 for TAP (bit 4 clear) or 72 + bitmask - 1 for HOLD
(bit 4 set) --- a function of the whole bitmask; only for bitmask values 9..15,
where the table misses, is the note 64/72 plus the lowest set bit index. -/
theorem c4_button_note_amended :
    (∀ c, c < 256 → 1 ≤ c &&& 0x0F → c &&& 0x0F ≤ 8 →
      buttonEvents c
        = send_note ((if c &&& 0x10 == 0 then 64 else 72) + (c &&& 0x0F) - 1) 127) ∧
    (∀ c, c < 256 → 9 ≤ c &&& 0x0F →
      buttonEvents c
        = send_note ((if c &&& 0x10 == 0 then 64 else 72)
            + (lowestSetBit (c &&& 0x0F)).getD 0) 127) := by
  exact ⟨by decide, by decide⟩

/-- C4 witness: the amended statement applied at the concrete control byte
0x03 (bitmask 3, TAP), giving the table note 66. -/
theorem c4_button_note_amended_witness :
    buttonEvents 0x03 = send_note ((if 0x03 &&& 0x10 == 0 then 64 else 72) + (0x03 &&& 0x0F) - 1) 127 :=
  c4_button_note_amended.1 0x03 (by decide) (by decide) (by decide)

set_option maxRecDepth 4096 in
/-- C5: fallback note mapping is total.  For every control byte with a
non-zero button bitmask whose combined flag value (0x40|bits for TAP,
0x50|bits for HOLD) has no entry in the corresponding note table, the button
block still emits a note pair, on base note 64 (TAP) or 72 (HOLD) plus the
0-based index of the lowest set bit, i.e. baseNote + (buttonNumber - 1). -/
theorem c5_fallback_total :
    ∀ c, c < 256 → c &&& 0x0F ≠ 0 →
      (if c &&& 0x10 == 0 then TAP_NOTE_MAP.lookup (0x40 ||| (c &&& 0x0F))
       else HOLD_NOTE_MAP.lookup (0x50 ||| (c &&& 0x0F))) = none →
      buttonEvents c
        = send_note ((if c &&& 0x10 == 0 then 64 else 72)
            + (lowestSetBit (c &&& 0x0F)).getD 0) 127 := by
  decide

/-- C5 witness: control byte 0x1C encodes HOLD with bitmask 0x0C (lowest set
bit 2, i.e. button 3); the combined value 0x5C has no HOLD-table entry and
the fallback yields note 72 + 2 = 74. -/
theorem c5_fallback_total_witness :
    buttonEvents 0x1C = send_note 74 127 := by
  have h := c5_fallback_total 0x1C (by decide) (by decide) (by decide)
  exact h.trans (by decide)

/-- C6: per-cycle event ordering with post-update position.  Every valid
cycle's output is the position-change events, then the encoder tick pairs,
then the button events, in that order, with the encoder (CW, CCW) note pair
selected from the position as updated by the rocker step of the same cycle;
in particular a report with rocker raw bits 01 (control byte 0x20), tick
delta +1 and no button bits, starting from VFO_A, emits exactly the
position-change pair on note 112 followed by one clockwise encoder pair on
note 102, not note 100. -/
theorem c6_dispatch_order :
    (∀ lo hi c pos,
      guiCycle (some [0x75, lo, hi, c, 0, 0, 0, 0]) pos
        = ((rockerStep c (decodeTicks lo hi != 0 || c &&& 0x0F != 0) pos).1,
           (rockerStep c (decodeTicks lo hi != 0 || c &&& 0x0F != 0) pos).2
             ++ encoderEvents (decodeTicks lo hi)
                  (get_encoder_notes
                    (rockerStep c (decodeTicks lo hi != 0 || c &&& 0x0F != 0) pos).1).1
                  (get_encoder_notes
                    (rockerStep c (decodeTicks lo hi != 0 || c &&& 0x0F != 0) pos).1).2
             ++ buttonEvents c)) ∧
    guiCycle (some [0x75, 1, 0, 0x20, 0, 0, 0, 0]) .vfoA
      = (.xitRit, [[0x90, 112, 127], [0x80, 112, 0], [0x90, 102, 127], [0x80, 102, 0]]) :=
  ⟨fun lo hi c pos => rfl, by decide⟩

/-- C7: encoder tick fan-out.  For every tick delta t the encoder block
emits exactly natAbs t Note-On/Note-Off pairs (2 * natAbs t messages), all
on the single note chosen from the position and the sign of t; in particular
tick delta +3 (bytes 03 00) at VFO_A emits exactly 3 pairs on note 100, and
tick delta -2 (bytes FE FF, decoded as the signed little-endian 16-bit value)
at XIT_RIT emits exactly 2 pairs on note 103. -/
theorem c7_encoder_fanout :
    (∀ (t : Int) (cw ccw : Nat),
      encoderEvents t cw ccw
          = List.flatten (List.replicate t.natAbs (send_note (if 0 < t then cw else ccw) 127)) ∧
      (encoderEvents t cw ccw).length = 2 * t.natAbs) ∧
    guiCycle (some [0x75, 3, 0, 0x40, 0, 0, 0, 0]) .vfoA
      = (.vfoA, List.flatten (List.replicate 3 (send_note 100 127))) ∧
    guiCycle (some [0x75, 0xFE, 0xFF, 0x20, 0, 0, 0, 0]) .xitRit
      = (.xitRit, List.flatten (List.replicate 2 (send_note 103 127))) := by
  refine ⟨fun t cw ccw => ?_, by decide, by decide⟩
  have heq := encoderEvents_eq_flatten t cw ccw
  exact ⟨heq, by rw [heq, length_flatten_replicate_pair]⟩

/-- C8: malformed-report atomicity in the GUI worker.  A failed read, a
response whose length differs from 8, or a response whose byte 0 is not the
echoed command 0x75 produces no MIDI events and leaves the carried-forward
rocker position unchanged (the GUI variant carries no other state), and the
cycle function returns normally so the loop continues. -/
theorem c8_malformed_skip :
    (∀ pos, guiCycle none pos = (pos, [])) ∧
    (∀ (r : List Nat) pos, r.length ≠ 8 → guiCycle (some r) pos = (pos, [])) ∧
    (∀ (r : List Nat) pos, r.getD 0 0 ≠ 0x75 → guiCycle (some r) pos = (pos, [])) := by
  refine ⟨fun pos => rfl,
    fun r pos h => guiCycle_badlen r pos (by simpa using h),
    fun r pos h => ?_⟩
  by_cases hl : r.length = 8
  · exact guiCycle_badecho r pos (by simpa using hl) (by simpa using h)
  · exact guiCycle_badlen r pos (by simpa using hl)

/-- C8 witness: a concrete short response and a concrete length-8 response
with a wrong command echo are both skipped without events or state change. -/
theorem c8_malformed_skip_witness :
    guiCycle (some []) .unknown = (.unknown, []) ∧
    guiCycle (some [0, 0, 0, 0, 0, 0, 0, 0]) .vfoA = (.vfoA, []) :=
  ⟨c8_malformed_skip.2.1 [] .unknown (by decide),
   c8_malformed_skip.2.2 [0, 0, 0, 0, 0, 0, 0, 0] .vfoA (by decide)⟩

/-- C9: Note-On/Note-Off pairing.  Every MIDI stream emitted by a poll cycle
of either bridge variant, and by any whole sequence of cycles, is a
concatenation of adjacent pairs of a Note-On message [0x90, note, velocity]
immediately followed by the Note-Off message [0x80, note, 0] for the same
note, so no note is ever sustained. -/
theorem c9_note_pairing :
    (∀ resp pos, PairedStream (guiCycle resp pos).2) ∧
    (∀ resp st, PairedStream (kpodCycle resp st).2) ∧
    (∀ pos reports, PairedStream (guiTrace pos reports).2) ∧
    (∀ st reports, PairedStream (kpodTrace st reports).2) :=
  ⟨pairedGuiCycle, pairedKpodCycle, pairedGuiTrace, pairedKpodTrace⟩

/-- C10: while the tracked position is UNKNOWN, encoder ticks use the VFO
note pair, clockwise 100 and counter-clockwise 101: note selection treats
UNKNOWN exactly like VFO_A and VFO_B and unlike XIT_RIT, and a report that
keeps the position UNKNOWN (control byte 0x10: rocker bits 00, hold flag
only) still emits all its tick pairs on notes 100/101, never suppressing
them. -/
theorem c10_unknown_encoder_notes :
    get_encoder_notes .unknown = (100, 101) ∧
    get_encoder_notes .unknown = get_encoder_notes .vfoA ∧
    get_encoder_notes .unknown = get_encoder_notes .vfoB ∧
    get_encoder_notes .unknown ≠ get_encoder_notes .xitRit ∧
    (∀ lo hi, guiCycle (some [0x75, lo, hi, 0x10, 0, 0, 0, 0]) .unknown
      = (.unknown, encoderEvents (decodeTicks lo hi) 100 101)) := by
  refine ⟨by decide, by decide, by decide, by decide, fun lo hi => ?_⟩
  have hd : ∀ (a : Bool) (pos : Rocker),
      detect_rocker_position_from_event 0x10 a pos = none := by decide
  have hb : buttonEvents 0x10 = [] := by decide
  have hg : get_encoder_notes Rocker.unknown = (100, 101) := by decide
  rw [guiCycle_valid_eq [0x75, lo, hi, 0x10, 0, 0, 0, 0] .unknown rfl rfl]
  simp [rockerStep, hd, hb, hg]
